import Mathlib

/-!
Shallow embedding of `src/tablet/tablet_peer.cc` (TabletPeer: lifecycle state
machine and Submit* entry points) and of the ordering contract of the
transaction pipeline it feeds, together with proofs about the embedded
operations.

External collaborators (TaskExecutor, LocalConsensus, Tablet metadata,
LeaderTransaction::Execute) live outside the excerpt; their observable
outcomes enter the model as explicit parameters (a `Status` for each external
call) and, where a claim is decided by their behaviour, the behaviour is
modelled from the spec and marked as such in its doc comment.
-/

namespace KuduTablet

/-- Lifecycle states of a tablet peer (`metadata::TabletStatePB` values used by
`tablet_peer.cc`; `SHUTDOWN` is the terminal value the spec names for teardown). -/
inductive TabletStatePB
  | BOOTSTRAPPING
  | CONFIGURING
  | RUNNING
  | SHUTDOWN
  deriving DecidableEq, Repr

/-- Rank of a lifecycle state along the forward chain
BOOTSTRAPPING - CONFIGURING - RUNNING - SHUTDOWN. -/
def stateRank : TabletStatePB → Nat
  | TabletStatePB.BOOTSTRAPPING => 0
  | TabletStatePB.CONFIGURING => 1
  | TabletStatePB.RUNNING => 2
  | TabletStatePB.SHUTDOWN => 3

/-- Model of `kudu::Status`: OK or an error kind carrying a message. Only the
kinds the embedded code produces are represented. -/
inductive Status
  | OK
  | IllegalState (msg : String)
  | IOError (msg : String)
  | RuntimeError (msg : String)
  deriving DecidableEq, Repr

/-- `Status::ok()`. -/
def Status.ok : Status → Bool
  | Status.OK => true
  | _ => false

/-- Whether a status is the IllegalState kind (any message). -/
def Status.isIllegalState : Status → Bool
  | Status.IllegalState _ => true
  | _ => false

/-- State of a `TabletPeer` object: the lifecycle `state_`, the handles assigned
by `Init` (`tablet_`, `quorum_peer_`, `log_`, `consensus_`, modelled as opaque
identities, `none` standing for a null pointer), the two executors created in
the constructor together with their worker-thread counts, the identities of the
peer-owned `prepare_replicate_lock_` and `config_lock_`, and the tablet
metadata's in-memory quorum (`SetQuorum`) and durably flushed quorum (`Flush`). -/
structure TabletPeer where
  state : TabletStatePB
  tablet : Option Nat
  quorum_peer : Nat
  log : Option Nat
  consensus : Option Nat
  tablet_consensus_set : Bool
  prepare_executor : Nat
  apply_executor : Nat
  prepare_num_threads : Nat
  apply_num_threads : Nat
  prepare_replicate_lock : Nat
  config_lock : Nat
  metaQuorum : Option Nat
  persistedQuorum : Option Nat
  deriving DecidableEq, Repr

/-- Model of the constructor `TabletPeer::TabletPeer` (tablet_peer.cc lines
27-38). The initializer list creates the prepare executor with 1 thread; the
body reads `sysconf(_SC_NPROCESSORS_CONF)` (its outcome modelled by
`sysconfErrno` and `nCpus`), aborts fatally (`CHECK_EQ(errno, 0)`,
`CHECK_GT(n_cpus, 0)`, modelled as `none`) when errno is set or the count is
not positive, creates the apply executor with `n_cpus` threads, and sets
`state_ = BOOTSTRAPPING`. -/
def TabletPeer.construct (sysconfErrno : Int) (nCpus : Int) : Option TabletPeer :=
  if sysconfErrno ≠ 0 then none
  else if nCpus ≤ 0 then none
  else some {
    state := TabletStatePB.BOOTSTRAPPING
    tablet := none
    quorum_peer := 0
    log := none
    consensus := none
    tablet_consensus_set := false
    prepare_executor := 1
    apply_executor := 2
    prepare_num_threads := 1
    apply_num_threads := nCpus.toNat
    prepare_replicate_lock := 3
    config_lock := 4
    metaQuorum := none
    persistedQuorum := none }

/-- Outcome of a call that can hit a fatal `DCHECK`/`CHECK`: either a fatal
abort (carrying the object's fields at the abort point) or a returned `Status`
together with the object's fields afterwards. -/
inductive InitOutcome
  | fatalAbort (p : TabletPeer)
  | result (s : Status) (p : TabletPeer)
  deriving DecidableEq, Repr

/-- Model of `TabletPeer::Init` (tablet_peer.cc lines 40-65). Under
`internal_state_lock_` the code first sets `state_ = CONFIGURING` and assigns
`tablet_`, `quorum_peer_`, `log_` and a freshly constructed `LocalConsensus`;
only after that block do `DCHECK(tablet_)` and `DCHECK(log_)` run (modelled as
`fatalAbort` carrying the fields as already assigned). Then
`consensus_->Init(...)` runs (external code, its result modelled by
`consensusInitStatus`); on failure that status is returned, otherwise
`tablet_->SetConsensus(...)` wires the tablet to the consensus and OK is
returned. -/
def TabletPeer.Init (p : TabletPeer) (tablet : Option Nat) (quorum_peer : Nat)
    (log : Option Nat) (consensusInitStatus : Status) : InitOutcome :=
  let p1 : TabletPeer :=
    { p with
      state := TabletStatePB.CONFIGURING
      tablet := tablet
      quorum_peer := quorum_peer
      log := log
      consensus := some 10 }
  if tablet.isNone then InitOutcome.fatalAbort p1
  else if log.isNone then InitOutcome.fatalAbort p1
  else if ¬ consensusInitStatus.ok then InitOutcome.result consensusInitStatus p1
  else InitOutcome.result Status.OK { p1 with tablet_consensus_set := true }

/-- Observable steps taken inside `Start` and `Shutdown`, in execution order. -/
inductive Event
  | consensusStart
  | setQuorum
  | metadataFlush
  | setStateRunning
  | consensusShutdown
  | prepareExecutorShutdown
  | applyExecutorShutdown
  deriving DecidableEq, Repr

/-- Result of `TabletPeer::Start`: returned status, the peer afterwards, and
the trace of steps executed. -/
structure StartResult where
  status : Status
  peer : TabletPeer
  events : List Event
  deriving DecidableEq, Repr

/-- Model of `TabletPeer::Start` (tablet_peer.cc lines 67-85). Holding
`config_lock_` for the whole call, it runs `consensus_->Start(quorum,
&actual_config)` (external code: `consensusStartStatus` is its status,
`actualConfig` the effective configuration it yields on success) and returns
its status on failure; then `tablet_->metadata()->SetQuorum(*actual_config)`
records the effective configuration in the metadata, and
`tablet_->metadata()->Flush()` (external code, status `flushStatus`) persists
it, returning that status on failure; only then, under
`internal_state_lock_`, is `state_ = RUNNING` assigned. -/
def TabletPeer.Start (p : TabletPeer) (quorum : Nat) (consensusStartStatus : Status)
    (actualConfig : Nat) (flushStatus : Status) : StartResult :=
  if ¬ consensusStartStatus.ok then
    { status := consensusStartStatus, peer := p, events := [Event.consensusStart] }
  else
    let p1 : TabletPeer := { p with metaQuorum := some actualConfig }
    if ¬ flushStatus.ok then
      { status := flushStatus, peer := p1
        events := [Event.consensusStart, Event.setQuorum, Event.metadataFlush] }
    else
      { status := Status.OK
        peer := { p1 with persistedQuorum := some actualConfig
                          state := TabletStatePB.RUNNING }
        events := [Event.consensusStart, Event.setQuorum, Event.metadataFlush,
                   Event.setStateRunning] }

/-- Result of `TabletPeer::Shutdown`: returned status, the peer afterwards,
the trace of shutdown steps executed, and the warnings logged. -/
structure ShutdownResult where
  status : Status
  peer : TabletPeer
  events : List Event
  warnings : List String
  deriving DecidableEq, Repr

/-- Model of `TabletPeer::Shutdown` (tablet_peer.cc lines 87-96). It calls
`consensus_->Shutdown()` (external code, status `consensusShutdownStatus`),
logging a warning — not failing — when that status is not OK; then
unconditionally `prepare_executor_->Shutdown()` and then
`apply_executor_->Shutdown()` (external code modelled from the spec as
status-returning drains that do not touch the peer's fields), and returns OK.
No assignment to `state_` occurs. -/
def TabletPeer.Shutdown (p : TabletPeer) (consensusShutdownStatus : Status) :
    ShutdownResult :=
  let warnings : List String :=
    if consensusShutdownStatus.ok then []
    else ["Consensus shutdown failed: " ++ reprStr consensusShutdownStatus]
  { status := Status.OK
    peer := p
    events := [Event.consensusShutdown, Event.prepareExecutorShutdown,
               Event.applyExecutorShutdown]
    warnings := warnings }

/-- Kind of a leader-side transaction constructed by a `Submit*` entry point. -/
inductive TxKind
  | write
  | alterSchema
  | changeConfig
  deriving DecidableEq, Repr

/-- A constructed leader transaction, recording which of the peer's resources
were handed to it: the consensus handle, the two executors, the ordering lock
(`prepare_replicate_lock_`), and — for change-config only — `config_lock_`. -/
structure LeaderTransaction where
  kind : TxKind
  consensus : Option Nat
  prepare_executor : Nat
  apply_executor : Nat
  prepare_replicate_lock : Nat
  config_lock : Option Nat
  deriving DecidableEq, Repr

/-- Model of `TabletPeer::SubmitWrite` (tablet_peer.cc lines 98-114). Under
`internal_state_lock_` (released right after the check) the state is checked:
if not RUNNING, `Status::IllegalState("Tablet not in RUNNING state.")` is
returned and no transaction is constructed. Otherwise a
`LeaderWriteTransaction` is built from the peer's consensus handle, prepare
executor, apply executor and `prepare_replicate_lock_`, and
`transaction->Execute()` (external code, its result modelled by
`executeStatus`) is returned. -/
def TabletPeer.SubmitWrite (p : TabletPeer) (executeStatus : Status) :
    Status × Option LeaderTransaction :=
  if p.state ≠ TabletStatePB.RUNNING then
    (Status.IllegalState "Tablet not in RUNNING state.", none)
  else
    (executeStatus, some {
      kind := TxKind.write
      consensus := p.consensus
      prepare_executor := p.prepare_executor
      apply_executor := p.apply_executor
      prepare_replicate_lock := p.prepare_replicate_lock
      config_lock := none })

/-- Model of `TabletPeer::SubmitAlterSchema` (tablet_peer.cc lines 116-132).
Same structure as `SubmitWrite`: state check under the state lock, then a
`LeaderAlterSchemaTransaction` built from the same peer resources, and
`transaction->Execute()` returned. -/
def TabletPeer.SubmitAlterSchema (p : TabletPeer) (executeStatus : Status) :
    Status × Option LeaderTransaction :=
  if p.state ≠ TabletStatePB.RUNNING then
    (Status.IllegalState "Tablet not in RUNNING state.", none)
  else
    (executeStatus, some {
      kind := TxKind.alterSchema
      consensus := p.consensus
      prepare_executor := p.prepare_executor
      apply_executor := p.apply_executor
      prepare_replicate_lock := p.prepare_replicate_lock
      config_lock := none })

/-- Model of `TabletPeer::SubmitChangeConfig` (tablet_peer.cc lines 134-146).
Unlike the other two entry points there is no state check: a
`LeaderChangeConfigTransaction` is always constructed, from the same consensus
handle, executors and `prepare_replicate_lock_`, plus `&config_lock_`, and
`transaction->Execute()` (result `executeStatus`) is returned. -/
def TabletPeer.SubmitChangeConfig (p : TabletPeer) (executeStatus : Status) :
    Status × Option LeaderTransaction :=
  (executeStatus, some {
    kind := TxKind.changeConfig
    consensus := p.consensus
    prepare_executor := p.prepare_executor
    apply_executor := p.apply_executor
    prepare_replicate_lock := p.prepare_replicate_lock
    config_lock := some p.config_lock })

/-- One call to a public entry point of the peer, together with the modelled
outcomes of the external calls it makes. -/
inductive PeerCall
  | initCall (tablet : Option Nat) (quorum_peer : Nat) (log : Option Nat)
      (consensusInitStatus : Status)
  | startCall (quorum : Nat) (consensusStartStatus : Status) (actualConfig : Nat)
      (flushStatus : Status)
  | shutdownCall (consensusShutdownStatus : Status)
  | submitWriteCall (executeStatus : Status)
  | submitAlterSchemaCall (executeStatus : Status)
  | submitChangeConfigCall (executeStatus : Status)
  deriving DecidableEq, Repr

/-- Whether a call is `Init`. -/
def PeerCall.isInit : PeerCall → Bool
  | PeerCall.initCall _ _ _ _ => true
  | _ => false

/-- The peer's fields after one public entry-point call, as the embedded
operations leave them (for a fatally aborted `Init`, the fields at the abort
point). `Submit*` never writes any peer field, so those calls leave the peer
unchanged. -/
def TabletPeer.step (p : TabletPeer) : PeerCall → TabletPeer
  | PeerCall.initCall t q l ci =>
      match p.Init t q l ci with
      | InitOutcome.fatalAbort p1 => p1
      | InitOutcome.result _ p1 => p1
  | PeerCall.startCall q cs cfg fs => (p.Start q cs cfg fs).peer
  | PeerCall.shutdownCall cs => (p.Shutdown cs).peer
  | PeerCall.submitWriteCall _ => p
  | PeerCall.submitAlterSchemaCall _ => p
  | PeerCall.submitChangeConfigCall _ => p

/-- Modelled from the spec: the transaction pipeline's observable submissions.
The bodies of `LeaderWriteTransaction::Execute` and its siblings (the code that
takes `prepare_replicate_lock_` and performs the submit-to-prepare-pool /
submit-to-replicate pair) are not under src/; an execution is modelled as a
trace of these two per-operation events. -/
inductive PipeEvent
  | prepareSubmit (op : Nat)
  | replicateSubmit (op : Nat)
  deriving DecidableEq, Repr

/-- Modelled from the spec: a trace respects the ordering lock when every
operation holds `prepare_replicate_lock_` across its
(submit-to-prepare, submit-to-replicate) pair, so the pair of one operation is
contiguous in the trace — no other operation's submission interleaves between
an operation's prepare submission and its replicate submission. -/
def orderingLockRespecting : List PipeEvent → Bool
  | [] => true
  | PipeEvent.prepareSubmit i :: PipeEvent.replicateSubmit j :: t =>
      i = j && orderingLockRespecting t
  | _ => false

/-- The operation ids in the order their prepare phases were submitted. -/
def prepareOrder (t : List PipeEvent) : List Nat :=
  t.filterMap fun e =>
    match e with
    | PipeEvent.prepareSubmit i => some i
    | _ => none

/-- The operation ids in the order they were handed to replicate. -/
def replicateOrder (t : List PipeEvent) : List Nat :=
  t.filterMap fun e =>
    match e with
    | PipeEvent.replicateSubmit i => some i
    | _ => none

/-- A concrete peer in the RUNNING state, as left by a successful
construct / Init / Start sequence. -/
def runningPeer : TabletPeer :=
  { state := TabletStatePB.RUNNING
    tablet := some 1
    quorum_peer := 7
    log := some 2
    consensus := some 10
    tablet_consensus_set := true
    prepare_executor := 1
    apply_executor := 2
    prepare_num_threads := 1
    apply_num_threads := 4
    prepare_replicate_lock := 3
    config_lock := 4
    metaQuorum := some 5
    persistedQuorum := some 5 }

/-- A concrete freshly constructed peer, still BOOTSTRAPPING. -/
def bootPeer : TabletPeer :=
  { state := TabletStatePB.BOOTSTRAPPING
    tablet := none
    quorum_peer := 0
    log := none
    consensus := none
    tablet_consensus_set := false
    prepare_executor := 1
    apply_executor := 2
    prepare_num_threads := 1
    apply_num_threads := 4
    prepare_replicate_lock := 3
    config_lock := 4
    metaQuorum := none
    persistedQuorum := none }

theorem Status.ok_iff (s : Status) : s.ok = true ↔ s = Status.OK := by
  cases s <;> simp [Status.ok]

/-- C7: the constructor creates the prepare pool with exactly one worker thread
and the apply pool with the host's CPU count of worker threads, leaves the peer
in BOOTSTRAPPING, and a sysconf error or a non-positive CPU count is fatal —
no peer is constructed, there is no degraded fallback. -/
theorem construct_pools_and_state (e n : Int) :
    (e = 0 → 0 < n → ∃ p, TabletPeer.construct e n = some p ∧
        p.prepare_num_threads = 1 ∧ p.apply_num_threads = n.toNat ∧
        p.state = TabletStatePB.BOOTSTRAPPING) ∧
    (e ≠ 0 → TabletPeer.construct e n = none) ∧
    (n ≤ 0 → TabletPeer.construct e n = none) := by
  refine ⟨?_, ?_, ?_⟩
  · intro he hn
    subst he
    unfold TabletPeer.construct
    rw [if_neg (by simp), if_neg (by omega)]
    exact ⟨_, rfl, rfl, rfl, rfl⟩
  · intro he
    simp [TabletPeer.construct, he]
  · intro hn
    unfold TabletPeer.construct
    by_cases he : e = 0
    · subst he
      rw [if_neg (by simp), if_pos hn]
    · rw [if_pos he]

/-- C7 witness: at errno 0 and 4 CPUs the constructor yields a peer with a
single-threaded prepare pool, a 4-thread apply pool and state BOOTSTRAPPING. -/
theorem construct_pools_and_state_witness :
    ∃ p, TabletPeer.construct 0 4 = some p ∧
      p.prepare_num_threads = 1 ∧ p.apply_num_threads = (4 : Int).toNat ∧
      p.state = TabletStatePB.BOOTSTRAPPING :=
  (construct_pools_and_state 0 4).1 rfl (by norm_num)

/-- C2 counterexample: Init on a freshly constructed peer with a null log hits
the fatal precondition check, but at the abort point the state has already been
set to CONFIGURING and the tablet handle attached — the state is not left
unchanged at BOOTSTRAPPING. -/
theorem init_null_log_cex :
    bootPeer.state = TabletStatePB.BOOTSTRAPPING ∧
    ∃ p1, TabletPeer.Init bootPeer (some 1) 7 none Status.OK =
        InitOutcome.fatalAbort p1 ∧
      p1.state = TabletStatePB.CONFIGURING ∧ p1.tablet = some 1 :=
  ⟨rfl, ⟨_, rfl, rfl, rfl⟩⟩

/-- C2 amended: Init with a null log fails with a fatal precondition violation
(no Status is returned), but the check runs only after the state was set to
CONFIGURING and the handles assigned under the state lock: at the abort point
the state is CONFIGURING, whatever it was before, and the passed tablet handle
is attached. -/
theorem init_null_log_amended (p : TabletPeer) (tablet : Option Nat)
    (qp : Nat) (ci : Status) :
    ∃ p1, TabletPeer.Init p tablet qp none ci = InitOutcome.fatalAbort p1 ∧
      p1.state = TabletStatePB.CONFIGURING ∧ p1.tablet = tablet ∧
      p1.log = none := by
  cases tablet with
  | none => exact ⟨_, rfl, rfl, rfl, rfl⟩
  | some a => exact ⟨_, rfl, rfl, rfl, rfl⟩

/-- C3: Start returns OK exactly when both the consensus Start and the metadata
flush succeed; on any failure it returns that failing status with the lifecycle
state unchanged; on success the state becomes RUNNING, the effective
configuration is durably persisted, and the trace shows the flush strictly
before the transition to RUNNING. -/
theorem start_running_only_after_persist (p : TabletPeer) (q : Nat)
    (cs : Status) (cfg : Nat) (fs : Status) :
    ((TabletPeer.Start p q cs cfg fs).status = Status.OK ↔
        cs.ok = true ∧ fs.ok = true) ∧
    ((TabletPeer.Start p q cs cfg fs).status ≠ Status.OK →
        (TabletPeer.Start p q cs cfg fs).peer.state = p.state) ∧
    (cs.ok = false → (TabletPeer.Start p q cs cfg fs).status = cs) ∧
    (cs.ok = true → fs.ok = false →
        (TabletPeer.Start p q cs cfg fs).status = fs) ∧
    ((TabletPeer.Start p q cs cfg fs).status = Status.OK →
        (TabletPeer.Start p q cs cfg fs).peer.state = TabletStatePB.RUNNING ∧
        (TabletPeer.Start p q cs cfg fs).peer.persistedQuorum = some cfg ∧
        (TabletPeer.Start p q cs cfg fs).events =
          [Event.consensusStart, Event.setQuorum, Event.metadataFlush,
           Event.setStateRunning]) := by
  by_cases hcs : cs.ok = true
  · by_cases hfs : fs.ok = true
    · simp [TabletPeer.Start, hcs, hfs]
    · have hfs' : fs ≠ Status.OK := fun h => hfs (h ▸ rfl)
      simp [TabletPeer.Start, hcs, hfs, hfs']
  · have hcs' : cs ≠ Status.OK := fun h => hcs (h ▸ rfl)
    simp [TabletPeer.Start, hcs, hcs']

/-- C3 witness: with a failing flush, Start returns the flush error and leaves
the state where it was. -/
theorem start_running_only_after_persist_witness :
    (TabletPeer.Start bootPeer 5 Status.OK 6 (Status.IOError "flush failed")).status =
      Status.IOError "flush failed" ∧
    (TabletPeer.Start bootPeer 5 Status.OK 6
        (Status.IOError "flush failed")).peer.state = bootPeer.state :=
  ⟨(start_running_only_after_persist bootPeer 5 Status.OK 6
      (Status.IOError "flush failed")).2.2.2.1 rfl rfl,
   (start_running_only_after_persist bootPeer 5 Status.OK 6
      (Status.IOError "flush failed")).2.1 (by decide)⟩

/-- C4: Shutdown executes the consensus shutdown first, then the prepare pool
shutdown, then the apply pool shutdown — both pool shutdowns unconditionally —
and returns OK for every consensus shutdown status; a failing consensus
shutdown only produces a logged warning. -/
theorem shutdown_order_and_status (p : TabletPeer) (cs : Status) :
    (TabletPeer.Shutdown p cs).status = Status.OK ∧
    (TabletPeer.Shutdown p cs).events =
      [Event.consensusShutdown, Event.prepareExecutorShutdown,
       Event.applyExecutorShutdown] ∧
    (TabletPeer.Shutdown p cs).warnings =
      (if cs.ok then [] else ["Consensus shutdown failed: " ++ reprStr cs]) :=
  ⟨rfl, rfl, rfl⟩

/-- C5 counterexample: after Shutdown completes on a RUNNING peer the state is
still RUNNING, not SHUTDOWN — Shutdown assigns no SHUTDOWN state. -/
theorem shutdown_state_cex :
    (TabletPeer.Shutdown runningPeer Status.OK).peer.state =
      TabletStatePB.RUNNING ∧
    TabletStatePB.RUNNING ≠ TabletStatePB.SHUTDOWN :=
  ⟨rfl, by decide⟩

/-- C5 amended: Shutdown never writes the lifecycle state: after Shutdown
completes, the state equals whatever it was before the call; in particular no
transition to a SHUTDOWN value occurs. -/
theorem shutdown_preserves_state (p : TabletPeer) (cs : Status) :
    (TabletPeer.Shutdown p cs).peer.state = p.state :=
  rfl

/-- C8: a second Shutdown after a previous (always successful) Shutdown again
returns OK and again performs the full shutdown sequence — the first call
consumed no peer field, so nothing is double-released in the model. -/
theorem shutdown_idempotent (p : TabletPeer) (cs1 cs2 : Status) :
    (TabletPeer.Shutdown p cs1).status = Status.OK ∧
    (TabletPeer.Shutdown ((TabletPeer.Shutdown p cs1).peer) cs2).status =
      Status.OK ∧
    (TabletPeer.Shutdown ((TabletPeer.Shutdown p cs1).peer) cs2).events =
      [Event.consensusShutdown, Event.prepareExecutorShutdown,
       Event.applyExecutorShutdown] :=
  ⟨rfl, rfl, rfl⟩

/-- C1 counterexample: SubmitChangeConfig on a BOOTSTRAPPING peer (state not
RUNNING) does not return an illegal-state error and does construct a
transaction — the change-config entry point performs no state check. -/
theorem submit_change_config_no_state_check_cex :
    bootPeer.state ≠ TabletStatePB.RUNNING ∧
    (TabletPeer.SubmitChangeConfig bootPeer Status.OK).1.isIllegalState = false ∧
    (TabletPeer.SubmitChangeConfig bootPeer Status.OK).2.isSome = true :=
  ⟨by decide, rfl, rfl⟩

/-- C1 amended: for the write and alter-schema kinds, a Submit call while the
state is not RUNNING returns the illegal-state error and constructs no
transaction; SubmitChangeConfig has no state check — it always constructs its
transaction and returns the transaction Execute status. -/
theorem submit_state_check_amended (p : TabletPeer) (es : Status)
    (h : p.state ≠ TabletStatePB.RUNNING) :
    TabletPeer.SubmitWrite p es =
      (Status.IllegalState "Tablet not in RUNNING state.", none) ∧
    TabletPeer.SubmitAlterSchema p es =
      (Status.IllegalState "Tablet not in RUNNING state.", none) ∧
    (TabletPeer.SubmitChangeConfig p es).1 = es ∧
    ∃ t, (TabletPeer.SubmitChangeConfig p es).2 = some t := by
  refine ⟨?_, ?_, rfl, ⟨_, rfl⟩⟩
  · simp [TabletPeer.SubmitWrite, h]
  · simp [TabletPeer.SubmitAlterSchema, h]

/-- C1 amended witness: on a BOOTSTRAPPING peer SubmitWrite rejects with the
illegal-state error while SubmitChangeConfig still constructs a transaction. -/
theorem submit_state_check_amended_witness :
    TabletPeer.SubmitWrite bootPeer Status.OK =
      (Status.IllegalState "Tablet not in RUNNING state.", none) ∧
    ∃ t, (TabletPeer.SubmitChangeConfig bootPeer Status.OK).2 = some t :=
  ⟨(submit_state_check_amended bootPeer Status.OK (by decide)).1,
   (submit_state_check_amended bootPeer Status.OK (by decide)).2.2.2⟩

/-- C10: on a RUNNING peer all three Submit entry points construct transactions
carrying the same consensus handle, the same prepare executor, the same apply
executor and the same ordering lock — the peer's own `prepare_replicate_lock_`
— and only the change-config transaction additionally receives the peer's
`config_lock_`. -/
theorem submit_shared_ordering_domain (p : TabletPeer) (es1 es2 es3 : Status)
    (h : p.state = TabletStatePB.RUNNING) :
    ∃ t1 t2 t3,
      (TabletPeer.SubmitWrite p es1).2 = some t1 ∧
      (TabletPeer.SubmitAlterSchema p es2).2 = some t2 ∧
      (TabletPeer.SubmitChangeConfig p es3).2 = some t3 ∧
      t1.consensus = p.consensus ∧ t2.consensus = p.consensus ∧
      t3.consensus = p.consensus ∧
      t1.prepare_executor = p.prepare_executor ∧
      t2.prepare_executor = p.prepare_executor ∧
      t3.prepare_executor = p.prepare_executor ∧
      t1.apply_executor = p.apply_executor ∧
      t2.apply_executor = p.apply_executor ∧
      t3.apply_executor = p.apply_executor ∧
      t1.prepare_replicate_lock = p.prepare_replicate_lock ∧
      t2.prepare_replicate_lock = p.prepare_replicate_lock ∧
      t3.prepare_replicate_lock = p.prepare_replicate_lock ∧
      t1.config_lock = none ∧ t2.config_lock = none ∧
      t3.config_lock = some p.config_lock := by
  have hw : (TabletPeer.SubmitWrite p es1).2 = some
      { kind := TxKind.write
        consensus := p.consensus
        prepare_executor := p.prepare_executor
        apply_executor := p.apply_executor
        prepare_replicate_lock := p.prepare_replicate_lock
        config_lock := none } := by
    simp [TabletPeer.SubmitWrite, h]
  have ha : (TabletPeer.SubmitAlterSchema p es2).2 = some
      { kind := TxKind.alterSchema
        consensus := p.consensus
        prepare_executor := p.prepare_executor
        apply_executor := p.apply_executor
        prepare_replicate_lock := p.prepare_replicate_lock
        config_lock := none } := by
    simp [TabletPeer.SubmitAlterSchema, h]
  exact ⟨_, _, _, hw, ha, rfl, rfl, rfl, rfl, rfl, rfl, rfl, rfl, rfl, rfl,
         rfl, rfl, rfl, rfl, rfl, rfl⟩

/-- C10 witness: the shared-resource property instantiated on the concrete
RUNNING peer. -/
theorem submit_shared_ordering_domain_witness :
    ∃ t1 t2 t3,
      (TabletPeer.SubmitWrite runningPeer Status.OK).2 = some t1 ∧
      (TabletPeer.SubmitAlterSchema runningPeer Status.OK).2 = some t2 ∧
      (TabletPeer.SubmitChangeConfig runningPeer Status.OK).2 = some t3 ∧
      t1.consensus = runningPeer.consensus ∧
      t2.consensus = runningPeer.consensus ∧
      t3.consensus = runningPeer.consensus ∧
      t1.prepare_executor = runningPeer.prepare_executor ∧
      t2.prepare_executor = runningPeer.prepare_executor ∧
      t3.prepare_executor = runningPeer.prepare_executor ∧
      t1.apply_executor = runningPeer.apply_executor ∧
      t2.apply_executor = runningPeer.apply_executor ∧
      t3.apply_executor = runningPeer.apply_executor ∧
      t1.prepare_replicate_lock = runningPeer.prepare_replicate_lock ∧
      t2.prepare_replicate_lock = runningPeer.prepare_replicate_lock ∧
      t3.prepare_replicate_lock = runningPeer.prepare_replicate_lock ∧
      t1.config_lock = none ∧ t2.config_lock = none ∧
      t3.config_lock = some runningPeer.config_lock :=
  submit_shared_ordering_domain runningPeer Status.OK Status.OK Status.OK rfl

/-- C6 counterexample: on a RUNNING peer the Init entry point moves the state
backwards to CONFIGURING — a strictly lower rank, and not the terminal
shutdown transition. -/
theorem init_moves_state_backwards_cex :
    runningPeer.state = TabletStatePB.RUNNING ∧
    (TabletPeer.step runningPeer
        (PeerCall.initCall (some 1) 7 (some 2) Status.OK)).state =
      TabletStatePB.CONFIGURING ∧
    stateRank TabletStatePB.CONFIGURING < stateRank TabletStatePB.RUNNING ∧
    TabletStatePB.CONFIGURING ≠ TabletStatePB.SHUTDOWN :=
  ⟨rfl, rfl, by decide, by decide⟩

/-- C6 amended: no entry point other than Init lowers the state rank — Shutdown
and the Submit entry points leave the state unchanged and Start only moves it
forward to RUNNING (from any non-SHUTDOWN state, and no entry point ever
assigns SHUTDOWN); Init, however, unconditionally sets the state to
CONFIGURING, so calling Init on a RUNNING peer moves the state backwards. -/
theorem state_monotonic_except_init (p : TabletPeer) (c : PeerCall)
    (hc : c.isInit = false) (hs : p.state ≠ TabletStatePB.SHUTDOWN) :
    stateRank p.state ≤ stateRank (TabletPeer.step p c).state ∧
    ∀ t q l ci, (TabletPeer.step p (PeerCall.initCall t q l ci)).state =
      TabletStatePB.CONFIGURING := by
  constructor
  · cases c with
    | initCall t q l ci => simp [PeerCall.isInit] at hc
    | startCall q cs cfg fs =>
        by_cases hcs : cs.ok = true
        · by_cases hfs : fs.ok = true
          · have hrun : (TabletPeer.step p (PeerCall.startCall q cs cfg fs)).state =
                TabletStatePB.RUNNING := by
              simp [TabletPeer.step, TabletPeer.Start, hcs, hfs]
            rw [hrun]
            cases hp : p.state <;> simp_all [stateRank]
          · have heq : (TabletPeer.step p (PeerCall.startCall q cs cfg fs)).state =
                p.state := by
              simp [TabletPeer.step, TabletPeer.Start, hcs, hfs]
            rw [heq]
        · have heq : (TabletPeer.step p (PeerCall.startCall q cs cfg fs)).state =
              p.state := by
            simp [TabletPeer.step, TabletPeer.Start, hcs]
          rw [heq]
    | shutdownCall cs => exact Nat.le_refl _
    | submitWriteCall es => exact Nat.le_refl _
    | submitAlterSchemaCall es => exact Nat.le_refl _
    | submitChangeConfigCall es => exact Nat.le_refl _
  · intro t q l ci
    cases t <;> cases l <;> by_cases hci : ci.ok = true <;>
      simp [TabletPeer.step, TabletPeer.Init, hci]

/-- C6 amended witness: a non-Init call (Shutdown) on the RUNNING peer does not
lower the state rank. -/
theorem state_monotonic_except_init_witness :
    (PeerCall.shutdownCall Status.OK).isInit = false ∧
    runningPeer.state ≠ TabletStatePB.SHUTDOWN ∧
    stateRank runningPeer.state ≤
      stateRank (TabletPeer.step runningPeer
        (PeerCall.shutdownCall Status.OK)).state :=
  ⟨rfl, by decide,
   (state_monotonic_except_init runningPeer (PeerCall.shutdownCall Status.OK)
      rfl (by decide)).1⟩

theorem orderingLockRespecting_bounded (n : Nat) :
    ∀ t : List PipeEvent, t.length ≤ n → orderingLockRespecting t = true →
      prepareOrder t = replicateOrder t := by
  induction n with
  | zero =>
    intro t ht _
    have : t = [] := List.length_eq_zero.mp (Nat.le_zero.mp ht)
    subst this
    rfl
  | succ n ih =>
    intro t ht h
    rcases t with _ | ⟨e1, _ | ⟨e2, t2⟩⟩
    · rfl
    · cases e1 <;> simp [orderingLockRespecting] at h
    · cases e1 with
      | replicateSubmit i => simp [orderingLockRespecting] at h
      | prepareSubmit i =>
        cases e2 with
        | prepareSubmit j => simp [orderingLockRespecting] at h
        | replicateSubmit j =>
          rw [orderingLockRespecting, Bool.and_eq_true, decide_eq_true_eq] at h
          obtain ⟨hij, ht2⟩ := h
          subst hij
          have hlen : t2.length ≤ n := by
            simp [List.length_cons] at ht
            omega
          have hrec := ih t2 hlen ht2
          simp [prepareOrder, replicateOrder, List.filterMap_cons] at hrec ⊢
          exact hrec

/-- C9: in every trace whose (submit-to-prepare, submit-to-replicate) pairs are
made atomic by the ordering lock, the sequence of operations handed to
replicate equals the sequence in which their prepare phases were submitted —
for any pair A submitted before B, A's replicate admission precedes B's. -/
theorem replicate_order_matches_prepare (t : List PipeEvent)
    (h : orderingLockRespecting t = true) :
    prepareOrder t = replicateOrder t :=
  orderingLockRespecting_bounded t.length t (Nat.le_refl _) h

/-- C9 witness: a two-operation lock-respecting trace, whose replicate order
equals its prepare order. -/
theorem replicate_order_matches_prepare_witness :
    orderingLockRespecting
      [PipeEvent.prepareSubmit 1, PipeEvent.replicateSubmit 1,
       PipeEvent.prepareSubmit 2, PipeEvent.replicateSubmit 2] = true ∧
    prepareOrder
      [PipeEvent.prepareSubmit 1, PipeEvent.replicateSubmit 1,
       PipeEvent.prepareSubmit 2, PipeEvent.replicateSubmit 2] =
    replicateOrder
      [PipeEvent.prepareSubmit 1, PipeEvent.replicateSubmit 1,
       PipeEvent.prepareSubmit 2, PipeEvent.replicateSubmit 2] :=
  ⟨by decide,
   replicate_order_matches_prepare
     [PipeEvent.prepareSubmit 1, PipeEvent.replicateSubmit 1,
      PipeEvent.prepareSubmit 2, PipeEvent.replicateSubmit 2] (by decide)⟩

end KuduTablet
